import Mathlib

/-!
Formal model of the `stream-run` repository's core: the entry store
(`src/entries/entries.go`) backed by Google Cloud Datastore, the `List`
iterator loop, and the notification pipeline (`sendWebMentions` and the
admin handlers in `src/stream.go`).

The Cloud Datastore client (reached through `e.DS.Client` from
`github.com/jcgregorio/go-lib/ds`, which exposes the raw
`cloud.google.com/go/datastore` client) is external to the repository and
is modelled from its documented semantics:
  - `Put` is an upsert: it creates the entity if the key is absent and
    overwrites it if present;
  - `Get` fails (`ErrNoSuchEntity`) exactly when the key is absent;
  - `Delete` is idempotent: deleting an absent key is a successful no-op;
  - `Query.Limit`: a negative limit means unlimited, a zero limit means
    zero results; `Query.Offset`: a negative offset makes the query
    invalid, so the iterator's first `Next` returns an error;
  - an `Order("-created")` query returns entities in non-increasing
    `created` order.
RPC/transport failures of `Put`/`Delete` are outside the model (they are
environment failures, not functional behaviour); the iterator model below
does allow arbitrary mid-stream read failures, which is what `List`'s
error handling is about.
-/

/-! ### MD5 (`crypto/md5` as used by `Entries.Insert`)

`Insert` derives the entity key as
`fmt.Sprintf("%x", md5.Sum([]byte(content+title+time.Now().Format(time.RFC3339Nano))))`.
The digest is implemented here in full (RFC 1321), on `Nat` with explicit
reduction modulo `2^32`; Go strings are UTF-8 byte sequences. -/

/-- Truncate to a 32-bit word. -/
def m32 (x : Nat) : Nat := x % 4294967296

/-- 32-bit left rotation of a word `x < 2^32` by `c` bits. -/
def rotl32 (x c : Nat) : Nat := m32 ((x <<< c) ||| (x >>> (32 - c)))

/-- 32-bit bitwise complement. -/
def not32 (x : Nat) : Nat := 4294967295 ^^^ x

/-- UTF-8 encoding of one character, as Go produces for `[]byte(s)`. -/
def utf8Bytes (c : Char) : List Nat :=
  let n := c.toNat
  if n < 128 then [n]
  else if n < 2048 then [192 + n / 64, 128 + n % 64]
  else if n < 65536 then [224 + n / 4096, 128 + n / 64 % 64, 128 + n % 64]
  else [240 + n / 262144, 128 + n / 4096 % 64, 128 + n / 64 % 64, 128 + n % 64]

/-- The bytes of a Go string (UTF-8). -/
def strBytes (s : String) : List Nat :=
  s.data.foldr (fun c acc => utf8Bytes c ++ acc) []

/-- MD5 per-step shift amounts (RFC 1321). -/
def md5s : List Nat :=
  [7, 12, 17, 22, 7, 12, 17, 22, 7, 12, 17, 22, 7, 12, 17, 22,
   5, 9, 14, 20, 5, 9, 14, 20, 5, 9, 14, 20, 5, 9, 14, 20,
   4, 11, 16, 23, 4, 11, 16, 23, 4, 11, 16, 23, 4, 11, 16, 23,
   6, 10, 15, 21, 6, 10, 15, 21, 6, 10, 15, 21, 6, 10, 15, 21]

/-- MD5 sine-derived constants (RFC 1321). -/
def md5K : List Nat :=
  [0xd76aa478, 0xe8c7b756, 0x242070db, 0xc1bdceee,
   0xf57c0faf, 0x4787c62a, 0xa8304613, 0xfd469501,
   0x698098d8, 0x8b44f7af, 0xffff5bb1, 0x895cd7be,
   0x6b901122, 0xfd987193, 0xa679438e, 0x49b40821,
   0xf61e2562, 0xc040b340, 0x265e5a51, 0xe9b6c7aa,
   0xd62f105d, 0x02441453, 0xd8a1e681, 0xe7d3fbc8,
   0x21e1cde6, 0xc33707d6, 0xf4d50d87, 0x455a14ed,
   0xa9e3e905, 0xfcefa3f8, 0x676f02d9, 0x8d2a4c8a,
   0xfffa3942, 0x8771f681, 0x6d9d6122, 0xfde5380c,
   0xa4beea44, 0x4bdecfa9, 0xf6bb4b60, 0xbebfbc70,
   0x289b7ec6, 0xeaa127fa, 0xd4ef3085, 0x04881d05,
   0xd9d4d039, 0xe6db99e5, 0x1fa27cf8, 0xc4ac5665,
   0xf4292244, 0x432aff97, 0xab9423a7, 0xfc93a039,
   0x655b59c3, 0x8f0ccc92, 0xffeff47d, 0x85845dd1,
   0x6fa87e4f, 0xfe2ce6e0, 0xa3014314, 0x4e0811a1,
   0xf7537e82, 0xbd3af235, 0x2ad7d2bb, 0xeb86d391]

/-- MD5 padding: append `0x80`, zero-pad to 56 mod 64, then the original
bit length as 8 little-endian bytes. -/
def md5Pad (msg : List Nat) : List Nat :=
  let bitLen := (8 * msg.length) % (2 ^ 64)
  let padLen := (55 + 64 - msg.length % 64) % 64 + 1
  msg ++ (128 :: List.replicate (padLen - 1) 0)
      ++ ((List.range 8).map fun i => bitLen / 256 ^ i % 256)

/-- Split a byte list into 64-byte chunks. -/
def toChunks (l : List Nat) : List (List Nat) :=
  if h : l = [] then []
  else
    l.take 64 :: toChunks (l.drop 64)
termination_by l.length
decreasing_by
  simp only [List.length_drop]
  have : 0 < l.length := List.length_pos.mpr h
  omega

/-- The little-endian 32-bit words of one 64-byte chunk. -/
def chunkWords (c : List Nat) : List Nat :=
  (List.range 16).map fun j =>
    c.getD (4 * j) 0 + 256 * c.getD (4 * j + 1) 0
      + 65536 * c.getD (4 * j + 2) 0 + 16777216 * c.getD (4 * j + 3) 0

/-- One MD5 round step on the running state `(a, b, c, d)`. -/
def md5Step (M : List Nat) (st : Nat × Nat × Nat × Nat) (i : Nat) : Nat × Nat × Nat × Nat :=
  let (a, b, c, d) := st
  let (f, g) :=
    if i < 16 then ((b &&& c) ||| (not32 b &&& d), i)
    else if i < 32 then ((d &&& b) ||| (not32 d &&& c), (5 * i + 1) % 16)
    else if i < 48 then (b ^^^ c ^^^ d, (3 * i + 5) % 16)
    else (c ^^^ (b ||| not32 d), 7 * i % 16)
  let f' := m32 (f + a + md5K.getD i 0 + M.getD g 0)
  (d, m32 (b + rotl32 f' (md5s.getD i 0)), b, c)

/-- Process one 64-byte chunk, updating the four word registers. -/
def md5Chunk (st : Nat × Nat × Nat × Nat) (c : List Nat) : Nat × Nat × Nat × Nat :=
  let M := chunkWords c
  let (a0, b0, c0, d0) := st
  let (a, b, c', d) := (List.range 64).foldl (md5Step M) st
  (m32 (a0 + a), m32 (b0 + b), m32 (c0 + c'), m32 (d0 + d))

/-- The four bytes of a 32-bit word, little-endian. -/
def wordLE (w : Nat) : List Nat := [w % 256, w / 256 % 256, w / 65536 % 256, w / 16777216 % 256]

/-- MD5 digest of a byte sequence: 16 bytes. -/
def md5Sum (msg : List Nat) : List Nat :=
  let (a, b, c, d) := (toChunks (md5Pad msg)).foldl md5Chunk
    (0x67452301, 0xefcdab89, 0x98badcfe, 0x10325476)
  wordLE a ++ wordLE b ++ wordLE c ++ wordLE d

/-- Lowercase hex digit. -/
def hexDigit (n : Nat) : Char := if n < 10 then Char.ofNat (48 + n) else Char.ofNat (87 + n)

/-- Two-character lowercase hex rendering of one byte (Go `%x` on bytes). -/
def byteHex (b : Nat) : String := String.mk [hexDigit (b / 16 % 16), hexDigit (b % 16)]

/-- Hex rendering of a byte list. -/
def bytesHex : List Nat → String
  | [] => ""
  | b :: bs => byteHex b ++ bytesHex bs

/-- `fmt.Sprintf("%x", md5.Sum([]byte(s)))`: the 32-character hex digest. -/
def md5Hex (s : String) : String := bytesHex (md5Sum (strBytes s))

/-! ### The Cloud Datastore client (external collaborator)

Modelled as an association list from key names to stored entities of kind
`Entry`. Keys written by this program are unique (Put replaces in place),
so the first match is the match. -/

/-- An entity of kind `Entry` as stored in Datastore: the fields carrying
datastore tags in `entries.go` (`title`, `content`, `created`); the `ID`
field is tagged `datastore:"-"` and is not stored. Time instants are
modelled as naturals. -/
structure StoredEntry where
  title : String
  content : String
  created : Nat
deriving Repr, DecidableEq

/-- Datastore state: key name to stored entity, for the single kind `Entry`. -/
abbrev Datastore := List (String × StoredEntry)

/-- `Client.Put`: an upsert — overwrite the entity under the key if
present, otherwise append a new entity. It does not fail on an absent key. -/
def dsPut : Datastore → String → StoredEntry → Datastore
  | [], k, e => [(k, e)]
  | (k', e') :: rest, k, e =>
    if k' = k then (k, e) :: rest else (k', e') :: dsPut rest k e

/-- `Client.Get`: exact key lookup; `none` models `ErrNoSuchEntity`. -/
def dsGet : Datastore → String → Option StoredEntry
  | [], _ => none
  | (k', e') :: rest, k => if k' = k then some e' else dsGet rest k

/-- `Client.Delete`: remove the entity under the key; deleting an absent
key is a successful no-op (Cloud Datastore deletes are idempotent). -/
def dsDelete : Datastore → String → Datastore
  | [], _ => []
  | (k', e') :: rest, k => if k' = k then rest else (k', e') :: dsDelete rest k

/-! ### The entries package (`src/entries/entries.go`) -/

/-- An `entries.Entry` as handed to callers: stored fields plus the `ID`
populated from the key name. -/
structure Entry where
  title : String
  content : String
  id : String
  created : Nat
deriving Repr, DecidableEq

namespace Entries

/-- `Get` (entries.go:45-56): key lookup; on success the `ID` field is set
from the key. A missing key yields the wrapped "Failed to load" error,
modelled as `none`. -/
def Get (d : Datastore) (id : String) : Option Entry :=
  match dsGet d id with
  | none => none
  | some e => some { title := e.title, content := e.content, id := id, created := e.created }

/-- `Insert` (entries.go:58-69): the key name is the hex MD5 of
`content + title + time.Now().Format(time.RFC3339Nano)`; the stored
entity records `content`, `title` and `created = time.Now()`. The two
`time.Now()` calls are distinct, so the formatted stamp `tsStr` used in
the key and the instant `tsVal` stored in `created` are separate
parameters. Returns `key.Name` together with the new store; the returned
Go `error` is the `Put` RPC error, which is nil absent infrastructure
failure and is outside the model. -/
def Insert (d : Datastore) (content title : String) (tsStr : String) (tsVal : Nat) :
    String × Datastore :=
  let key := md5Hex (content ++ title ++ tsStr)
  (key, dsPut d key { title := title, content := content, created := tsVal })

/-- `Update` (entries.go:71-82): builds a fresh entity with
`Created = time.Now()` (the instant `tsVal` of the update) and `Put`s it
under the given id. Note: it stores the update instant in `created` (the
struct has no separate updated field) and, `Put` being an upsert, it never
checks that `id` already exists. The returned error is the `Put` RPC
error, nil absent infrastructure failure. -/
def Update (d : Datastore) (id content title : String) (tsVal : Nat) :
    Option String × Datastore :=
  (none, dsPut d id { title := title, content := content, created := tsVal })

/-- `Delete` (entries.go:84-88): `Client.Delete` on the key; returns its
RPC error, which is nil both when the key existed and when it did not. -/
def Delete (d : Datastore) (id : String) : Option String × Datastore :=
  (none, dsDelete d id)

end Entries

/-! ### The `List` query and its iterator loop (entries.go:90-109) -/

/-- One outcome of `it.Next(entry)`: the sentinel `iterator.Done`, a read
failure, or a key/entity pair. -/
inductive IterStep
  | done
  | fail (msg : String)
  | item (key : String) (e : StoredEntry)
deriving Repr, DecidableEq

/-- The `Entry` the loop body builds from one iterator item:
the stored fields plus `entry.ID = key.Name`. -/
def entryOfPair (p : String × StoredEntry) : Entry :=
  { title := p.2.title, content := p.2.content, id := p.1, created := p.2.created }

namespace Entries

/-- The loop of `List` (entries.go:95-107) over the sequence of iterator
outcomes: `Done` breaks; a read error is logged and breaks; an item is
appended with its `ID` set. The function returns `(ret, nil)`
(entries.go:108) — the error component is always `none`. -/
def listLoop : List IterStep → List Entry × Option String
  | [] => ([], none)
  | IterStep.done :: _ => ([], none)
  | IterStep.fail _ :: _ => ([], none)
  | IterStep.item k e :: rest =>
    let (ret, err) := listLoop rest
    (entryOfPair (k, e) :: ret, err)

end Entries

/-- The datastore ordering `Order("-created")`: `a` may come before `b`
when `b`'s creation instant is at most `a`'s. -/
def createdDesc (a b : String × StoredEntry) : Prop := b.2.created ≤ a.2.created

instance : DecidableRel createdDesc := fun a b => Nat.decLe b.2.created a.2.created

instance : IsTotal (String × StoredEntry) createdDesc :=
  ⟨fun a b => (Nat.le_total b.2.created a.2.created).imp id id⟩

instance : IsTrans (String × StoredEntry) createdDesc :=
  ⟨fun _ _ _ hab hbc => Nat.le_trans hbc hab⟩

/-- The stored entities in the order the `Order("-created")` query yields
them: non-increasing `created` (ties in an unspecified but fixed order,
modelled by a stable sort). -/
def sortedPairs (d : Datastore) : List (String × StoredEntry) :=
  List.insertionSort createdDesc d

/-- The sequence of iterator outcomes produced by running
`NewQuery(ENTRY).Order("-created").Limit(n).Offset(offset)`:
a negative offset makes the query invalid, so the first `Next` fails;
otherwise the server drops `offset` results and, when `n` is
non-negative, returns at most `n` of the rest (a negative limit means
unlimited), ending with `Done`. -/
def queryTrace (d : Datastore) (n offset : Int) : List IterStep :=
  if offset < 0 then [IterStep.fail "datastore: negative query offset"]
  else
    let window :=
      (if n < 0 then id else List.take n.toNat) ((sortedPairs d).drop offset.toNat)
    window.map (fun p => IterStep.item p.1 p.2) ++ [IterStep.done]

/-- `List` (entries.go:90-109): run the query and collect the iterator
with the loop above. -/
def Entries.List (d : Datastore) (n offset : Int) : List Entry × Option String :=
  Entries.listLoop (queryTrace d n offset)

/-! ### The notification pipeline (`src/stream.go`)

`sendWebMentions` (stream.go:332-369) and `adminNewHandler`
(stream.go:312-330). The outbound HTTP world — link discovery on the
rendered content, per-target endpoint discovery, the webmention POST and
the websub hub POST — is external, so it enters the model as an
environment of outcomes; the model captures the control flow the Go code
drives over those outcomes. -/

/-- Outcome of one outbound HTTP call: a transport error (in which case
the Go `*http.Response` is nil), or a response with a status code. -/
inductive HttpResult
  | transportError (msg : String)
  | response (status : Nat)
deriving Repr, DecidableEq

/-- The external world seen by one `sendWebMentions` call. -/
structure WMEnv where
  /-- `webmention.DiscoverLinksFromReader` on the rendered content. -/
  discoverLinks : Except String (List String)
  /-- `m.DiscoverEndpoint(link)` per target link. -/
  discoverEndpoint : String → Except String String
  /-- `m.SendWebmention(endpoint, source, link)` per target link. -/
  sendMention : String → String → String → HttpResult
  /-- `client.PostForm(websubUrl, ...)` for the hub ping. -/
  hubResult : HttpResult

/-- Observable actions of `sendWebMentions`: a webmention send attempt
for a link (stream.go:349) and the hub publish POST (stream.go:359). -/
inductive WMEvent
  | sendAttempt (endpoint source link : String)
  | hubPosted
deriving Repr, DecidableEq

/-- How a `sendWebMentions` call ends: a normal nil return, an early
`return err`, or a runtime panic. -/
inductive WMOutcome
  | ok
  | err (msg : String)
  | panicked
deriving Repr, DecidableEq

/-- The link loop (stream.go:343-357). For each link: `DiscoverEndpoint`;
on error the function does `return err`, abandoning the remaining links;
on success `SendWebmention` is attempted once and its failure (transport
error or status ≥ 400) is only logged. Returns the events so far and the
early-return error, if any. -/
def webMentionLoop (env : WMEnv) (source : String) : List String → List WMEvent × Option String
  | [] => ([], none)
  | link :: rest =>
    match env.discoverEndpoint link with
    | Except.error e => ([], some e)
    | Except.ok endpoint =>
      let _sendResult := env.sendMention endpoint source link
      let (evs, r) := webMentionLoop env source rest
      (WMEvent.sendAttempt endpoint source link :: evs, r)

/-- `sendWebMentions` (stream.go:332-369): discover links (a failure here
returns the wrapped error); run the link loop (a discovery failure inside
it returns that error before the hub is reached); then POST to the websub
hub. A hub transport error is logged, but the very next line dereferences
`resp.StatusCode` on the nil response — a panic. -/
def sendWebMentions (env : WMEnv) (source : String) : List WMEvent × WMOutcome :=
  match env.discoverLinks with
  | Except.error e => ([], WMOutcome.err ("Failed to discover links: " ++ e))
  | Except.ok links =>
    match webMentionLoop env source links with
    | (evs, some e) => (evs, WMOutcome.err e)
    | (evs, none) =>
      match env.hubResult with
      | HttpResult.transportError _ => (evs ++ [WMEvent.hubPosted], WMOutcome.panicked)
      | HttpResult.response _ => (evs ++ [WMEvent.hubPosted], WMOutcome.ok)

/-- An HTTP response written by a handler. -/
inductive RespAction
  | httpError (status : Nat)
  | redirect (location : String) (code : Nat)
deriving Repr, DecidableEq

/-- What one run of `adminNewHandler` did. -/
structure HandlerRun where
  /-- Responses written to `w`, in order. -/
  actions : List RespAction
  /-- Whether `sendWebMentions` (the notification phase) was invoked. -/
  webmentionsEntered : Bool
  /-- Whether the request died in a panic. -/
  panicked : Bool
deriving Repr, DecidableEq

/-- `adminNewHandler` (stream.go:312-330) on an authenticated admin
request, given the outcome of `entryDB.Insert` (`insertErr`, nil on
success) and the notification environment. After a failed insert the
handler writes a 500 — but does not return (stream.go:322-325), so it
still calls `sendWebMentions` and still issues the 302 redirect. A panic
inside `sendWebMentions` propagates and aborts the handler before the
redirect. -/
def adminNewHandler (insertErr : Option String) (env : WMEnv) (source : String) : HandlerRun :=
  let errActs := match insertErr with
    | some _ => [RespAction.httpError 500]
    | none => []
  match sendWebMentions env source with
  | (_, WMOutcome.panicked) =>
    { actions := errActs, webmentionsEntered := true, panicked := true }
  | (_, _) =>
    { actions := errActs ++ [RespAction.redirect "/admin" 302],
      webmentionsEntered := true, panicked := false }

/-! ### Helper lemmas -/

/-- A `Put` key is found by a subsequent `Get` of the same key. -/
theorem dsGet_dsPut_self (d : Datastore) (k : String) (e : StoredEntry) :
    dsGet (dsPut d k e) k = some e := by
  induction d with
  | nil => simp [dsPut, dsGet]
  | cons p rest ih =>
    obtain ⟨k', e'⟩ := p
    by_cases h : k' = k
    · simp [dsPut, dsGet, h]
    · simp [dsPut, dsGet, h, ih]

/-- A key absent from the association list is not found. -/
theorem dsGet_eq_none_of_not_mem (d : Datastore) (k : String)
    (h : k ∉ d.map Prod.fst) : dsGet d k = none := by
  induction d with
  | nil => rfl
  | cons p rest ih =>
    obtain ⟨k', e'⟩ := p
    simp only [List.map_cons, List.mem_cons] at h
    push_neg at h
    simp [dsGet, Ne.symm h.1, ih h.2]

/-- Deleting a key that `Get` cannot find leaves the store unchanged. -/
theorem dsDelete_of_get_none (d : Datastore) (k : String)
    (h : dsGet d k = none) : dsDelete d k = d := by
  induction d with
  | nil => rfl
  | cons p rest ih =>
    obtain ⟨k', e'⟩ := p
    by_cases hk : k' = k
    · simp [dsGet, hk] at h
    · simp only [dsGet, hk, if_false] at h
      simp [dsDelete, hk, ih h]

/-- After a delete on a store with unique keys, the key is gone. -/
theorem dsGet_dsDelete_self (d : Datastore) (k : String)
    (h : (d.map Prod.fst).Nodup) : dsGet (dsDelete d k) k = none := by
  induction d with
  | nil => rfl
  | cons p rest ih =>
    obtain ⟨k', e'⟩ := p
    simp only [List.map_cons, List.nodup_cons] at h
    by_cases hk : k' = k
    · subst hk
      simp only [dsDelete, if_pos rfl]
      exact dsGet_eq_none_of_not_mem rest k' h.1
    · simp [dsDelete, dsGet, hk, ih h.2]

/-- Running the `List` loop over a run of items followed by a terminator
collects exactly those items, with a nil error. -/
theorem listLoop_items (l : List (String × StoredEntry)) (tail : List IterStep)
    (htail : Entries.listLoop tail = ([], none)) :
    Entries.listLoop (l.map (fun p => IterStep.item p.1 p.2) ++ tail)
      = (l.map entryOfPair, none) := by
  induction l with
  | nil => simpa [Entries.listLoop] using htail
  | cons p rest ih =>
    simp [Entries.listLoop, ih]

/-- Closed form of `Entries.List`: the sorted window mapped to entries,
always paired with a nil error. -/
theorem list_closed_form (d : Datastore) (n off : Int) :
    Entries.List d n off =
      ((if off < 0 then [] else
        ((if n < 0 then id else List.take n.toNat)
          ((sortedPairs d).drop off.toNat)).map entryOfPair), none) := by
  unfold Entries.List queryTrace
  by_cases h : off < 0
  · simp [h, Entries.listLoop]
  · simp only [h, if_false]
    rw [listLoop_items _ [IterStep.done] rfl]

/-- The endpoint a link resolves to when its discovery succeeds. -/
def endpointOf (env : WMEnv) (link : String) : String :=
  match env.discoverEndpoint link with
  | Except.ok ep => ep
  | Except.error _ => ""

/-- How `sendWebMentions` ends once the hub POST is reached: a transport
error leaves a nil response whose `StatusCode` read panics; otherwise the
function returns nil. -/
def hubOutcome (env : WMEnv) : WMOutcome :=
  match env.hubResult with
  | HttpResult.transportError _ => WMOutcome.panicked
  | HttpResult.response _ => WMOutcome.ok

/-- When every link's endpoint discovery succeeds, the loop attempts one
send per link, in order, and reports no early return. -/
theorem webMentionLoop_all_ok (env : WMEnv) (source : String) (links : List String)
    (h : ∀ l ∈ links, ∃ ep, env.discoverEndpoint l = Except.ok ep) :
    webMentionLoop env source links
      = (links.map (fun l => WMEvent.sendAttempt (endpointOf env l) source l), none) := by
  induction links with
  | nil => rfl
  | cons link rest ih =>
    obtain ⟨ep, hep⟩ := h link (List.mem_cons_self link rest)
    have hrest := ih fun l hl => h l (List.mem_cons_of_mem link hl)
    simp [webMentionLoop, hep, hrest, endpointOf]

/-- The first endpoint-discovery failure makes the loop return that error
at once: links after it are not attempted. -/
theorem webMentionLoop_first_failure (env : WMEnv) (source : String)
    (pre : List String) (link : String) (post : List String) (e : String)
    (hpre : ∀ l ∈ pre, ∃ ep, env.discoverEndpoint l = Except.ok ep)
    (hlink : env.discoverEndpoint link = Except.error e) :
    webMentionLoop env source (pre ++ link :: post)
      = (pre.map (fun l => WMEvent.sendAttempt (endpointOf env l) source l), some e) := by
  induction pre with
  | nil => simp [webMentionLoop, hlink]
  | cons p rest ih =>
    obtain ⟨ep, hep⟩ := hpre p (List.mem_cons_self p rest)
    have hrest := ih fun l hl => hpre l (List.mem_cons_of_mem p hl)
    simp [webMentionLoop, hep, hrest, endpointOf]

/-! ### The claims -/

/-- C1: the spec says `Update(id, c2, t2)` preserves `created` (and `id`)
and advances a separate `updated` stamp. The code instead stores
`Created = time.Now()` — the instant `v2` of the update — and the `Entry`
type has no updated field: after inserting at instant `v1` and updating
at instant `v2`, `Get` returns an entry whose `created` is `v2`, not the
original `v1`. Content, title and id behave as claimed. -/
theorem update_overwrites_created (c1 t1 ts : String) (v1 : Nat)
    (c2 t2 : String) (v2 : Nat) :
    Entries.Get
        (Entries.Update (Entries.Insert [] c1 t1 ts v1).2
          (Entries.Insert [] c1 t1 ts v1).1 c2 t2 v2).2
        (Entries.Insert [] c1 t1 ts v1).1
      = some { title := t2, content := c2,
               id := (Entries.Insert [] c1 t1 ts v1).1, created := v2 } := by
  simp [Entries.Insert, Entries.Update, Entries.Get, dsPut, dsGet]

/-- C4 counterexample: updating an id that is absent from the store does
not fail with NotFound — it succeeds (nil error) and creates a record
under that id. -/
theorem update_missing_id_counterexample :
    (Entries.Update ([] : Datastore) "nosuch" "c2" "t2" 5).1 = none ∧
      Entries.Get (Entries.Update ([] : Datastore) "nosuch" "c2" "t2" 5).2 "nosuch"
        = some { title := "t2", content := "c2", id := "nosuch", created := 5 } := by
  constructor
  · rfl
  · rfl

/-- C4 amended: for every id absent from the store, `Update(id, c2, t2)`
returns nil (there is no NotFound path: `Put` is an upsert) and creates a
record under that id, with `created` set to the update instant. -/
theorem update_missing_id_upserts (d : Datastore) (id c t : String) (v : Nat)
    (h : Entries.Get d id = none) :
    (Entries.Update d id c t v).1 = none ∧
      Entries.Get (Entries.Update d id c t v).2 id
        = some { title := t, content := c, id := id, created := v } := by
  refine ⟨rfl, ?_⟩
  simp [Entries.Update, Entries.Get, dsGet_dsPut_self]

/-- C4 witness: the amended statement at a concrete store. -/
theorem update_missing_id_upserts_witness :
    Entries.Get ([("other", ⟨"t0", "c0", 1⟩)] : Datastore) "nosuch" = none ∧
      ((Entries.Update ([("other", ⟨"t0", "c0", 1⟩)] : Datastore) "nosuch" "c" "t" 5).1 = none ∧
        Entries.Get (Entries.Update ([("other", ⟨"t0", "c0", 1⟩)] : Datastore) "nosuch" "c" "t" 5).2 "nosuch"
          = some { title := "t", content := "c", id := "nosuch", created := 5 }) :=
  ⟨by decide, update_missing_id_upserts [("other", ⟨"t0", "c0", 1⟩)] "nosuch" "c" "t" 5 (by decide)⟩

/-- C5 counterexample: deleting an id absent from the store does not fail
with NotFound — the delete returns nil; likewise the second of two
deletes of the same id returns nil. -/
theorem delete_missing_id_counterexample :
    Entries.Delete ([] : Datastore) "ghost" = (none, []) ∧
      Entries.Delete (Entries.Delete ([("id1", ⟨"t", "c", 3⟩)] : Datastore) "id1").2 "id1"
        = (none, []) := by
  constructor
  · rfl
  · decide

/-- C5 amended: `Delete(id)` always returns nil — deleting an absent id
is a successful no-op, the id is gone afterwards (on a store with unique
keys), and a second delete of the same id succeeds and changes nothing
(idempotence), rather than failing with NotFound. -/
theorem delete_idempotent_never_notfound (d : Datastore) (id : String)
    (h : (d.map Prod.fst).Nodup) :
    (Entries.Delete d id).1 = none ∧
      Entries.Get (Entries.Delete d id).2 id = none ∧
      Entries.Delete (Entries.Delete d id).2 id = (none, (Entries.Delete d id).2) := by
  refine ⟨rfl, ?_, ?_⟩
  · simp [Entries.Get, Entries.Delete, dsGet_dsDelete_self d id h]
  · have hnone : dsGet (dsDelete d id) id = none := dsGet_dsDelete_self d id h
    simp [Entries.Delete, dsDelete_of_get_none _ _ hnone]

/-- C5 witness: the amended statement at a concrete store. -/
theorem delete_idempotent_never_notfound_witness :
    (([("a", ⟨"t", "c", 1⟩), ("b", ⟨"u", "d", 2⟩)] : Datastore).map Prod.fst).Nodup ∧
      ((Entries.Delete ([("a", ⟨"t", "c", 1⟩), ("b", ⟨"u", "d", 2⟩)] : Datastore) "a").1 = none ∧
        Entries.Get (Entries.Delete ([("a", ⟨"t", "c", 1⟩), ("b", ⟨"u", "d", 2⟩)] : Datastore) "a").2 "a" = none ∧
        Entries.Delete (Entries.Delete ([("a", ⟨"t", "c", 1⟩), ("b", ⟨"u", "d", 2⟩)] : Datastore) "a").2 "a"
          = (none, (Entries.Delete ([("a", ⟨"t", "c", 1⟩), ("b", ⟨"u", "d", 2⟩)] : Datastore) "a").2)) :=
  ⟨by decide, delete_idempotent_never_notfound [("a", ⟨"t", "c", 1⟩), ("b", ⟨"u", "d", 2⟩)] "a" (by decide)⟩

/-- An MD5 digest always starts with a byte: it is `wordLE a ++ ...`. -/
theorem md5Sum_cons (msg : List Nat) : ∃ x rest, md5Sum msg = x :: rest := by
  unfold md5Sum
  obtain ⟨a, b, c, d⟩ :=
    (toChunks (md5Pad msg)).foldl md5Chunk (0x67452301, 0xefcdab89, 0x98badcfe, 0x10325476)
  exact ⟨_, _, rfl⟩

/-- The hex rendering of a nonempty byte list is nonempty. -/
theorem bytesHex_cons_ne_empty (b : Nat) (bs : List Nat) : bytesHex (b :: bs) ≠ "" := by
  intro h
  have : (bytesHex (b :: bs)).data = [] := congrArg String.data h
  simp [bytesHex, byteHex, String.instAppend, String.append] at this

/-- The hex MD5 of any string is nonempty. -/
theorem md5Hex_ne_empty (s : String) : md5Hex s ≠ "" := by
  obtain ⟨x, rest, hx⟩ := md5Sum_cons (strBytes s)
  unfold md5Hex
  rw [hx]
  exact bytesHex_cons_ne_empty x rest

/-- C6 counterexample: two `Insert` calls with identical content and
title whose two `time.Now().Format(time.RFC3339Nano)` readings coincide
(nothing prevents consecutive calls from falling in the same nanosecond)
produce the same key: the second id is not distinct from the id the same
store already issued — the second `Put` silently overwrites the first
record. -/
theorem insert_same_instant_collides :
    (Entries.Insert
        (Entries.Insert [] "This is content." "This is title" "2019-06-01T08:30:00.000000001Z" 7).2
        "This is content." "This is title" "2019-06-01T08:30:00.000000001Z" 7).1
      = (Entries.Insert [] "This is content." "This is title" "2019-06-01T08:30:00.000000001Z" 7).1 := rfl

/-- C6 amended: `Insert` returns a non-empty id, and the id is a
deterministic function of `(content, title, formatted creation time)`
alone — independent of the store contents and of the separately sampled
`created` instant. Distinctness of ids therefore rests solely on the MD5
digests of the concatenations differing; it is not checked by the code,
and calls sharing content, title and formatted timestamp collide. -/
theorem insert_id_nonempty_deterministic (d d' : Datastore) (c t ts : String) (v v' : Nat) :
    (Entries.Insert d c t ts v).1 ≠ "" ∧
      (Entries.Insert d c t ts v).1 = (Entries.Insert d' c t ts v').1 := by
  exact ⟨md5Hex_ne_empty (c ++ t ++ ts), rfl⟩

/-- A notification environment with two discovered links where the first
link's endpoint discovery fails and the second would accept a webmention,
and with a healthy hub. -/
def envTwoLinks : WMEnv where
  discoverLinks := Except.ok ["https://a.example/post", "https://b.example/post"]
  discoverEndpoint := fun l =>
    if l = "https://a.example/post" then Except.error "no endpoint advertised"
    else Except.ok "https://b.example/webmention"
  sendMention := fun _ _ _ => HttpResult.response 202
  hubResult := HttpResult.response 204

/-- C2 counterexample: with the first link's endpoint discovery failing,
`sendWebMentions` returns that error at once — the second link receives
zero send attempts (the claim demands exactly one) and the hub notifier
is never invoked (the claim demands it still is). -/
theorem discovery_failure_aborts_dispatch_counterexample :
    sendWebMentions envTwoLinks "https://ex.example/entry/1"
      = ([], WMOutcome.err "no endpoint advertised") := by
  decide

/-- C2 amended: links are independent only on the send side. If every
link's endpoint discovery succeeds, each discovered link receives exactly
one send attempt, in order, and the hub POST happens afterwards whatever
each send returned. But the first endpoint-discovery failure makes
`sendWebMentions` return that error immediately: the remaining links
receive no send attempt and the hub notifier is not invoked. -/
theorem sendWebMentions_dispatch_behaviour (env : WMEnv) (source : String) :
    (∀ links, env.discoverLinks = Except.ok links →
      (∀ l ∈ links, ∃ ep, env.discoverEndpoint l = Except.ok ep) →
        sendWebMentions env source
          = (links.map (fun l => WMEvent.sendAttempt (endpointOf env l) source l)
              ++ [WMEvent.hubPosted], hubOutcome env)) ∧
    (∀ pre link post e, env.discoverLinks = Except.ok (pre ++ link :: post) →
      (∀ l ∈ pre, ∃ ep, env.discoverEndpoint l = Except.ok ep) →
      env.discoverEndpoint link = Except.error e →
        sendWebMentions env source
          = (pre.map (fun l => WMEvent.sendAttempt (endpointOf env l) source l),
             WMOutcome.err e)) := by
  constructor
  · intro links hlinks hok
    have hloop := webMentionLoop_all_ok env source links hok
    rcases henv : env.hubResult with m | st <;>
      simp [sendWebMentions, hlinks, hloop, hubOutcome, henv]
  · intro pre link post e hlinks hpre hlink
    have hloop := webMentionLoop_first_failure env source pre link post e hpre hlink
    simp [sendWebMentions, hlinks, hloop]

/-- An environment where both links' endpoint discoveries succeed but
both sends fail (one transport error, one 500 status), and the hub reply
is itself a client error. -/
def envSendsFail : WMEnv where
  discoverLinks := Except.ok ["https://a.example/post", "https://b.example/post"]
  discoverEndpoint := fun l =>
    if l = "https://a.example/post" then Except.ok "https://a.example/webmention"
    else Except.ok "https://b.example/webmention"
  sendMention := fun _ _ l =>
    if l = "https://a.example/post" then HttpResult.transportError "timeout"
    else HttpResult.response 500
  hubResult := HttpResult.response 400

/-- C2 witness: the amended statement at concrete environments — with all
discoveries succeeding every link is attempted once and the hub posted
despite the failing sends, and in `envTwoLinks` the discovery failure on
the first link aborts the rest. -/
theorem sendWebMentions_dispatch_behaviour_witness :
    sendWebMentions envSendsFail "https://ex.example/entry/1"
      = ([WMEvent.sendAttempt "https://a.example/webmention" "https://ex.example/entry/1" "https://a.example/post",
          WMEvent.sendAttempt "https://b.example/webmention" "https://ex.example/entry/1" "https://b.example/post",
          WMEvent.hubPosted], WMOutcome.ok) ∧
    sendWebMentions envTwoLinks "https://ex.example/entry/2"
      = ([], WMOutcome.err "no endpoint advertised") := by
  constructor
  · have h := (sendWebMentions_dispatch_behaviour envSendsFail "https://ex.example/entry/1").1
      ["https://a.example/post", "https://b.example/post"] rfl
      (by
        intro l hl
        simp only [List.mem_cons, List.not_mem_nil, or_false] at hl
        rcases hl with h1 | h2
        · exact ⟨"https://a.example/webmention", by rw [h1]; rfl⟩
        · exact ⟨"https://b.example/webmention", by rw [h2]; rfl⟩)
    rw [h]
    decide
  · have h := (sendWebMentions_dispatch_behaviour envTwoLinks "https://ex.example/entry/2").2
      [] "https://a.example/post" ["https://b.example/post"] "no endpoint advertised"
      rfl (by intro l hl; simp at hl) rfl
    rw [h]
    rfl

/-- A fully healthy notification environment: no links discovered in the
content, hub reachable. -/
def envQuiet : WMEnv where
  discoverLinks := Except.ok []
  discoverEndpoint := fun _ => Except.ok ""
  sendMention := fun _ _ _ => HttpResult.response 200
  hubResult := HttpResult.response 204

/-- C3: when `Insert` fails, `adminNewHandler` does report a 500 to the
caller — but the `http.Error` call is not followed by a `return`
(stream.go:322-325), so the notification phase is still entered
(`sendWebMentions` runs) and the 302 success redirect is written as well.
The claim that the notification phase is never entered is violated. -/
theorem insert_failure_still_enters_notification :
    adminNewHandler (some "rpc error: connection refused") envQuiet "https://ex.example/entry/x"
      = { actions := [RespAction.httpError 500, RespAction.redirect "/admin" 302],
          webmentionsEntered := true, panicked := false } := by
  decide

/-- A notification environment whose websub hub is unreachable: the
`PostForm` returns a transport error and a nil response. -/
def envHubDown : WMEnv where
  discoverLinks := Except.ok ["https://a.example/post"]
  discoverEndpoint := fun _ => Except.ok "https://a.example/webmention"
  sendMention := fun _ _ _ => HttpResult.response 200
  hubResult := HttpResult.transportError "dial tcp: connection refused"

/-- C9: with a successful insert but an unreachable websub hub,
`sendWebMentions` logs the `PostForm` error and then dereferences the nil
response (`resp.StatusCode`, stream.go:366): the handler panics and the
302 success redirect is never written, so the authoring action appears to
fail even though the store write succeeded. -/
theorem hub_transport_failure_panics_before_redirect :
    adminNewHandler none envHubDown "https://ex.example/entry/1"
      = { actions := [], webmentionsEntered := true, panicked := true } := by
  decide

/-- The query's result sequence is sorted: non-increasing `created`. -/
theorem sortedPairs_sorted (d : Datastore) :
    (sortedPairs d).Pairwise createdDesc :=
  List.sorted_insertionSort createdDesc d

/-- The query's result sequence is a permutation of the store. -/
theorem sortedPairs_perm (d : Datastore) : (sortedPairs d).Perm d :=
  List.perm_insertionSort createdDesc d

/-- C7: for non-negative `n` and `k`, `List(n, 0)` returns at most `n`
entries in non-increasing `created` order, and `List(n, k)` is exactly
`List(n+k, 0)` with its first `k` entries dropped. -/
theorem list_pagination (d : Datastore) (n k : Int) (hn : 0 ≤ n) (hk : 0 ≤ k) :
    (Entries.List d n 0).1.length ≤ n.toNat ∧
      (Entries.List d n 0).1.Pairwise (fun a b => b.created ≤ a.created) ∧
      (Entries.List d n k).1 = ((Entries.List d (n + k) 0).1).drop k.toNat := by
  have hn' : ¬(n < 0) := not_lt.mpr hn
  have hk' : ¬(k < 0) := not_lt.mpr hk
  have hnk' : ¬(n + k < 0) := by omega
  refine ⟨?_, ?_, ?_⟩
  · simp [list_closed_form, hn']
  · rw [list_closed_form]
    simp only [hn', lt_irrefl, if_false]
    rw [List.pairwise_map]
    have hsorted : ((sortedPairs d).drop (0 : Int).toNat).Pairwise createdDesc :=
      (sortedPairs_sorted d).sublist (List.drop_sublist _ _)
    exact hsorted.sublist (List.take_sublist _ _)
  · have h0 : ¬((0 : Int) < 0) := by omega
    rw [list_closed_form, list_closed_form]
    simp only [hn', hk', hnk', h0, if_false, Int.toNat_zero, List.drop_zero]
    rw [← List.map_drop, List.drop_take]
    have harith : (n + k).toNat - k.toNat = n.toNat := by omega
    rw [harith]

/-- C7 witness: the pagination statement at a concrete three-entry store
with `n = 2`, `k = 1`. -/
theorem list_pagination_witness :
    (0 : Int) ≤ 2 ∧ (0 : Int) ≤ 1 ∧
      ((Entries.List ([("a", ⟨"t1", "c1", 5⟩), ("b", ⟨"t2", "c2", 9⟩), ("c", ⟨"t3", "c3", 7⟩)] : Datastore) 2 0).1.length ≤ (2 : Int).toNat ∧
        (Entries.List ([("a", ⟨"t1", "c1", 5⟩), ("b", ⟨"t2", "c2", 9⟩), ("c", ⟨"t3", "c3", 7⟩)] : Datastore) 2 0).1.Pairwise (fun a b => b.created ≤ a.created) ∧
        (Entries.List ([("a", ⟨"t1", "c1", 5⟩), ("b", ⟨"t2", "c2", 9⟩), ("c", ⟨"t3", "c3", 7⟩)] : Datastore) 2 1).1
          = ((Entries.List ([("a", ⟨"t1", "c1", 5⟩), ("b", ⟨"t2", "c2", 9⟩), ("c", ⟨"t3", "c3", 7⟩)] : Datastore) (2 + 1) 0).1).drop (1 : Int).toNat) :=
  ⟨by decide, by decide,
    list_pagination [("a", ⟨"t1", "c1", 5⟩), ("b", ⟨"t2", "c2", 9⟩), ("c", ⟨"t3", "c3", 7⟩)] 2 1
      (by decide) (by decide)⟩

/-- C8 counterexample: a negative limit does not yield the empty
sequence — `Limit(-1)` means unlimited, so on a one-entry store
`List(-1, 0)` returns that entry. -/
theorem negative_limit_not_empty_counterexample :
    (Entries.List ([("k1", ⟨"t", "c", 3⟩)] : Datastore) (-1) 0).1
      = [{ title := "t", content := "c", id := "k1", created := 3 }] := by
  decide

/-- C8 amended: a zero limit returns the empty sequence, but a negative
limit means unlimited — for every non-negative offset, `List` then
returns every stored entry past the offset. (A negative offset still
yields an empty sequence, because the invalid query's error is swallowed
by the loop.) -/
theorem list_zero_and_negative_limit (d : Datastore) (off : Int) (hoff : 0 ≤ off) :
    (Entries.List d 0 off).1 = [] ∧
      (∀ n : Int, n < 0 → (Entries.List d n off).1.length = d.length - off.toNat) ∧
      (∀ n : Int, (Entries.List d n (-1)).1 = []) := by
  have hoff' : ¬(off < 0) := not_lt.mpr hoff
  refine ⟨?_, ?_, ?_⟩
  · simp [list_closed_form, hoff']
  · intro n hn
    rw [list_closed_form]
    simp only [hoff', hn, if_true, if_false, id]
    rw [List.length_map, List.length_drop, (sortedPairs_perm d).length_eq]
  · intro n
    simp [list_closed_form]

/-- C8 witness: the amended statement at a concrete two-entry store with
offset 1 and limit -5. -/
theorem list_zero_and_negative_limit_witness :
    (0 : Int) ≤ 1 ∧ (-5 : Int) < 0 ∧
      ((Entries.List ([("a", ⟨"t1", "c1", 5⟩), ("b", ⟨"t2", "c2", 9⟩)] : Datastore) 0 1).1 = [] ∧
        (Entries.List ([("a", ⟨"t1", "c1", 5⟩), ("b", ⟨"t2", "c2", 9⟩)] : Datastore) (-5) 1).1.length
          = ([("a", ⟨"t1", "c1", 5⟩), ("b", ⟨"t2", "c2", 9⟩)] : Datastore).length - (1 : Int).toNat) :=
  ⟨by decide, by decide,
    (list_zero_and_negative_limit [("a", ⟨"t1", "c1", 5⟩), ("b", ⟨"t2", "c2", 9⟩)] 1 (by decide)).1,
    (list_zero_and_negative_limit [("a", ⟨"t1", "c1", 5⟩), ("b", ⟨"t2", "c2", 9⟩)] 1 (by decide)).2.1
      (-5) (by decide)⟩

/-- C10: the `List` loop never surfaces a read error. Whatever iterator
outcomes the query produces: a failure partway through yields exactly the
entries read before it with a nil error; a clean `Done` at the same point
yields the identical result, so a truncated listing is indistinguishable
from a complete one; and `Entries.List` itself always returns a nil
error. -/
theorem list_never_errors (pre : List (String × StoredEntry)) (msg : String)
    (rest : List IterStep) (d : Datastore) (n off : Int) :
    Entries.listLoop (pre.map (fun p => IterStep.item p.1 p.2) ++ IterStep.fail msg :: rest)
        = (pre.map entryOfPair, none) ∧
      Entries.listLoop (pre.map (fun p => IterStep.item p.1 p.2) ++ IterStep.done :: rest)
        = (pre.map entryOfPair, none) ∧
      (Entries.List d n off).2 = none := by
  refine ⟨?_, ?_, ?_⟩
  · exact listLoop_items pre (IterStep.fail msg :: rest) rfl
  · exact listLoop_items pre (IterStep.done :: rest) rfl
  · rw [list_closed_form]
